import Mathlib

/-!
Shallow embedding of `reclassify_tab_v5b.py` (Taxonomy v5b reclassifier).

Modelling conventions:
* A spreadsheet cell is a `Cell`: the column may be absent from the sheet
  (`Cell.absent`), the value may be a pandas missing value / NaN
  (`Cell.null`), or it is a text value (`Cell.str`).
* `row.get(c, "")` followed by `str(...)` is `cellText`: an absent column
  yields the default `""`, a missing value stringifies to the text `"nan"`
  (Python `str(float("nan")) == "nan"`), and a text value is unchanged.
* `.strip()` is `pyStrip` (drops leading/trailing ASCII whitespace),
  `.lower()` is `pyLower` (ASCII lowercasing), `k in desc` is
  `strContains desc k` (substring containment), and `" ".join(...)` is
  `joinSpace`.
-/

inductive Cell where
  | absent
  | null
  | str (s : String)
deriving DecidableEq

/-- Python `str(row.get(col, ""))`: default `""` when the column is absent,
`"nan"` for a pandas missing value, the text itself otherwise. -/
def cellText : Cell → String
  | .absent => ""
  | .null => "nan"
  | .str s => s

/-- Whitespace characters removed by Python `str.strip()`. -/
def isPySpace (c : Char) : Bool :=
  c == ' ' || c == '\t' || c == '\n' || c == '\r' || c == '\x0b' || c == '\x0c'

/-- Python `str.strip()`: drop leading and trailing whitespace. -/
def pyStrip (s : String) : String :=
  String.mk (((s.data.dropWhile isPySpace).reverse.dropWhile isPySpace).reverse)

/-- ASCII lowercasing of one character, as Python `str.lower()` does on
the ASCII range (all keywords and category labels are ASCII). -/
def lowerChar (c : Char) : Char :=
  if 'A' ≤ c ∧ c ≤ 'Z' then Char.ofNat (c.toNat + 32) else c

/-- Python `str.lower()`. -/
def pyLower (s : String) : String := String.mk (s.data.map lowerChar)

/-- Does the first character list start the second? -/
def chStarts : List Char → List Char → Bool
  | [], _ => true
  | _ :: _, [] => false
  | a :: as, b :: bs => a == b && chStarts as bs

/-- Python substring containment `needle in hay`. -/
def strContains (hay needle : String) : Bool :=
  (List.range (hay.data.length + 1)).any (fun i => chStarts needle.data (hay.data.drop i))

/-- Python `" ".join(xs)`. -/
def joinSpace : List String → String
  | [] => ""
  | [x] => x
  | x :: xs => x ++ " " ++ joinSpace xs

/-- One row of the sheet, restricted to the columns `assign_v5b` and the
summaries consume. -/
structure Record where
  item : Cell
  description : Cell
  subcategory : Cell
  newCategory : Cell
  newSubCategory : Cell
  newSubSubCategory : Cell
deriving DecidableEq

/-! Taxonomy v5b keyword groups, transcribed from the source. Python uses
sets; `any(k in desc for k in keys)` is order-independent, so lists with
the same elements are a faithful model. -/

def electrical_consumable_keys : List String := [
  "terminal","terminals","connector","connectors","fuse","fuses","label","labels",
  "zip tie","zip-tie","heat shrink","heat-shrink","lug","ring terminal","butt splice",
  "butt-splice","spade","boot","tie mount","cable tie","cable-tie","wire ferrule","ferrule"]

def electrical_component_keys : List String := [
  "relay","relays","breaker","breakers","controller","controllers","converter","converters",
  "power supply","power supplies","switch","switches","sensor","sensors","outlet","outlets",
  "bus bar","disconnect","enclosure","box","contact","contactor","panel","display","gauge"]

def hull_maintenance_keys : List String := [
  "adhesive","sealant","cleaning","painting","sanding","fiberglass","polish","tape",
  "protective","wrap","repair","supplies","paint","varnish","epoxy"]

def hull_rigging_keys : List String := [
  "rigging","fitting","mooring","anchor","anchoring","line","rope","deck","fender",
  "winch","cover","sail","sails","halyard","sheet","bosun","mast","spool","traveler",
  "block","cleat","clutch","shackle","turnbuckle","stay"]

def recreational_water_keys : List String :=
  ["water","diving","snorkel","swim","surf","paddle","kite","sup"]

def recreational_fitness_keys : List String :=
  ["fitness","gym","exercise","yoga","workout","weight","band","dumbbell","resistance"]

def tools_keys : List String :=
  ["tool","tools","puller","pliers","screwdriver","drill","socket","wrench","punch","generator","clamp"]

def test_measure_keys : List String :=
  ["pressure gauge","pressure gauges","gauge","measurement","calibration","manifold"]

def cleaning_keys : List String :=
  ["cleaning","laundry","detergent","soap","polish","wipe","wipes","brush","broom","mop"]

def ppe_keys : List String :=
  ["respiratory","respirator","uniform","uniforms","gloves","coverall","coveralls","mask","masks"]

def docs_keys : List String :=
  ["manual","manuals","document","documents","logbook","logbooks","book","books"]

def safety_fire_keys : List String :=
  ["fire","firefighting","extinguisher","fire hose","firehose","suppression"]

def safety_rescue_keys : List String :=
  ["life jacket","lifejacket","harness","tether","survival","epirb","plb","flare","flares","liferaft","life raft"]

def rec_components_keys : List String :=
  ["hinge","slide","drawer","latch","hardware","bracket","mount","knob","fixture"]

def rec_consumables_keys : List String :=
  ["lubricant","lubricants","oil","adhesive","polish","protectant","wax"]

/-- Python `any(k in desc for k in keys)`. -/
def anyKey (keys : List String) (desc : String) : Bool :=
  keys.any (fun k => strContains desc k)

/-- Python `orig_new_cat = str(row.get("New Category", "")).strip()`. -/
def orig_new_cat (row : Record) : String := pyStrip (cellText row.newCategory)

/-- Python `orig_new_sub = str(row.get("New Sub-Category", "")).strip()`. -/
def orig_new_sub (row : Record) : String := pyStrip (cellText row.newSubCategory)

/-- Python `desc = " ".join(str(row.get(c, "")).lower() for c in
["Item", "Description", "Subcategory"])`. -/
def desc_of (row : Record) : String :=
  joinSpace ([row.item, row.description, row.subcategory].map (fun c => pyLower (cellText c)))

/-- Python `vsubsub = str(row.get("New Sub-Sub-Category", "")).strip()`. -/
def vsubsub (row : Record) : String := pyStrip (cellText row.newSubSubCategory)

/-- Transcription of `assign_v5b(row)` — full Taxonomy v5b logic. -/
def assign_v5b (row : Record) : String × String × String :=
  -- ELECTRICAL
  if orig_new_cat row = "Electrical" ∧ orig_new_sub row = "Other Spare Parts" then
    if anyKey electrical_consumable_keys (desc_of row) then
      ("Electrical", "Electrical Consumables", vsubsub row)
    else if anyKey electrical_component_keys (desc_of row) then
      ("Electrical", "Electrical Components & Devices", vsubsub row)
    else
      ("Electrical", "Electrical Components & Devices", vsubsub row)
  -- HULL
  else if orig_new_cat row = "Hull" ∧ orig_new_sub row = "Other Spare Parts" then
    if anyKey hull_maintenance_keys (desc_of row) then
      ("Hull", "Hull Maintenance & Repair", vsubsub row)
    else if anyKey hull_rigging_keys (desc_of row) then
      ("Hull", "Rigging & Deck Equipment", vsubsub row)
    else if anyKey safety_fire_keys (desc_of row) then
      ("Safety", "Fire & Emergency Equipment", vsubsub row)
    else if anyKey safety_rescue_keys (desc_of row) then
      ("Safety", "Rescue & Survival Equipment", vsubsub row)
    else
      ("Hull", "Hull Maintenance & Repair", vsubsub row)
  -- COMMON MAINTENANCE
  else if orig_new_cat row = "Common Maintenance" ∧ orig_new_sub row = "Other Spare Parts" then
    if anyKey tools_keys (desc_of row) then
      ("Common Maintenance", "Tools & Equipment", vsubsub row)
    else if anyKey test_measure_keys (desc_of row) then
      ("Common Maintenance", "Test & Measurement Tools", vsubsub row)
    else if anyKey cleaning_keys (desc_of row) then
      ("Common Maintenance", "Cleaning Equipment & Supplies", vsubsub row)
    else if anyKey ppe_keys (desc_of row) then
      ("Common Maintenance", "PPE & Uniforms", vsubsub row)
    else if anyKey docs_keys (desc_of row) then
      ("Common Maintenance", "Documentation & Manuals", vsubsub row)
    else
      ("Common Maintenance", "Maintenance Consumables", vsubsub row)
  -- RECREATIONAL
  else if orig_new_cat row = "Recreational" ∧ orig_new_sub row = "Other Spare Parts" then
    if anyKey cleaning_keys (desc_of row) then
      ("Common Maintenance", "Cleaning Equipment & Supplies", vsubsub row)
    else if strContains (desc_of row) "tools" then
      ("Common Maintenance", "Tools & Equipment", vsubsub row)
    else if strContains (desc_of row) "medical" || strContains (desc_of row) "safety" then
      ("Safety", "First Aid & Emergency Equipment", vsubsub row)
    else if strContains (desc_of row) "food" || strContains (desc_of row) "galley" then
      ("Recreational", "Galley Consumables", vsubsub row)
    else if anyKey ["office", "book", "document", "decor", "blanket", "logbook"] (desc_of row) then
      ("Recreational", "Cabin & Office Supplies", vsubsub row)
    else if anyKey recreational_water_keys (desc_of row) then
      ("Recreational", "Recreational Equipment", vsubsub row)
    else if anyKey recreational_fitness_keys (desc_of row) then
      ("Recreational", "Sports & Fitness Equipment", vsubsub row)
    else if anyKey rec_components_keys (desc_of row) then
      ("Recreational", "Recreational Components", vsubsub row)
    else if anyKey rec_consumables_keys (desc_of row) then
      ("Recreational", "Recreational Consumables", vsubsub row)
    else
      ("Recreational", "Recreational Cleaning & Storage", vsubsub row)
  -- SAILING
  else if orig_new_cat row = "Sailing" ∧ orig_new_sub row = "Other Spare Parts" then
    if anyKey ["sail", "canvas", "cover", "stack pack", "stackpack"] (desc_of row) then
      ("Sailing", "Sails & Canvas", vsubsub row)
    else if anyKey ["halyard", "sheet", "reef", "downhaul", "line", "rope"] (desc_of row) then
      ("Sailing", "Running Rigging", vsubsub row)
    else if anyKey ["shroud", "stay", "turnbuckle", "chainplate", "standing"] (desc_of row) then
      ("Sailing", "Standing Rigging", vsubsub row)
    else if anyKey ["winch", "traveler", "block", "cleat", "clutch"] (desc_of row) then
      ("Sailing", "Winches & Deck Gear", vsubsub row)
    else if anyKey ["tape", "twine", "whipping", "grease", "lubricant"] (desc_of row) then
      ("Sailing", "Sailing Consumables", vsubsub row)
    else if anyKey ["sewing", "palm", "needle", "machine"] (desc_of row) then
      ("Sailing", "Sail Maintenance & Repair", vsubsub row)
    else
      ("Sailing", "Sailing Consumables", vsubsub row)
  -- SAFETY
  else if orig_new_cat row = "Safety" ∧ orig_new_sub row = "Other Spare Parts" then
    if anyKey safety_fire_keys (desc_of row) then
      ("Safety", "Fire & Emergency Equipment", vsubsub row)
    else if anyKey safety_rescue_keys (desc_of row) then
      ("Safety", "Rescue & Survival Equipment", vsubsub row)
    else
      ("Safety", "First Aid & Emergency Equipment", vsubsub row)
  -- DEFAULT: return unchanged
  else
    (orig_new_cat row, orig_new_sub row, vsubsub row)


/-! Rule-table view of the six category blocks: trigger pair, ordered
keyword sets with targets, and the block fallback. This is the declarative
reading of the if-chains above; the bridge lemmas below prove the two
agree, so claims quantified over blocks can be stated against the table. -/

structure RuleSet where
  keys : List String
  target : String × String
deriving DecidableEq

structure Block where
  trigCat : String
  trigSub : String
  sets : List RuleSet
  fallback : String × String
deriving DecidableEq

def electricalBlock : Block :=
  ⟨"Electrical", "Other Spare Parts",
    [⟨electrical_consumable_keys, ("Electrical", "Electrical Consumables")⟩,
     ⟨electrical_component_keys, ("Electrical", "Electrical Components & Devices")⟩],
    ("Electrical", "Electrical Components & Devices")⟩

def hullBlock : Block :=
  ⟨"Hull", "Other Spare Parts",
    [⟨hull_maintenance_keys, ("Hull", "Hull Maintenance & Repair")⟩,
     ⟨hull_rigging_keys, ("Hull", "Rigging & Deck Equipment")⟩,
     ⟨safety_fire_keys, ("Safety", "Fire & Emergency Equipment")⟩,
     ⟨safety_rescue_keys, ("Safety", "Rescue & Survival Equipment")⟩],
    ("Hull", "Hull Maintenance & Repair")⟩

def commonMaintBlock : Block :=
  ⟨"Common Maintenance", "Other Spare Parts",
    [⟨tools_keys, ("Common Maintenance", "Tools & Equipment")⟩,
     ⟨test_measure_keys, ("Common Maintenance", "Test & Measurement Tools")⟩,
     ⟨cleaning_keys, ("Common Maintenance", "Cleaning Equipment & Supplies")⟩,
     ⟨ppe_keys, ("Common Maintenance", "PPE & Uniforms")⟩,
     ⟨docs_keys, ("Common Maintenance", "Documentation & Manuals")⟩],
    ("Common Maintenance", "Maintenance Consumables")⟩

def recreationalBlock : Block :=
  ⟨"Recreational", "Other Spare Parts",
    [⟨cleaning_keys, ("Common Maintenance", "Cleaning Equipment & Supplies")⟩,
     ⟨["tools"], ("Common Maintenance", "Tools & Equipment")⟩,
     ⟨["medical", "safety"], ("Safety", "First Aid & Emergency Equipment")⟩,
     ⟨["food", "galley"], ("Recreational", "Galley Consumables")⟩,
     ⟨["office", "book", "document", "decor", "blanket", "logbook"],
       ("Recreational", "Cabin & Office Supplies")⟩,
     ⟨recreational_water_keys, ("Recreational", "Recreational Equipment")⟩,
     ⟨recreational_fitness_keys, ("Recreational", "Sports & Fitness Equipment")⟩,
     ⟨rec_components_keys, ("Recreational", "Recreational Components")⟩,
     ⟨rec_consumables_keys, ("Recreational", "Recreational Consumables")⟩],
    ("Recreational", "Recreational Cleaning & Storage")⟩

def sailingBlock : Block :=
  ⟨"Sailing", "Other Spare Parts",
    [⟨["sail", "canvas", "cover", "stack pack", "stackpack"], ("Sailing", "Sails & Canvas")⟩,
     ⟨["halyard", "sheet", "reef", "downhaul", "line", "rope"], ("Sailing", "Running Rigging")⟩,
     ⟨["shroud", "stay", "turnbuckle", "chainplate", "standing"], ("Sailing", "Standing Rigging")⟩,
     ⟨["winch", "traveler", "block", "cleat", "clutch"], ("Sailing", "Winches & Deck Gear")⟩,
     ⟨["tape", "twine", "whipping", "grease", "lubricant"], ("Sailing", "Sailing Consumables")⟩,
     ⟨["sewing", "palm", "needle", "machine"], ("Sailing", "Sail Maintenance & Repair")⟩],
    ("Sailing", "Sailing Consumables")⟩

def safetyBlock : Block :=
  ⟨"Safety", "Other Spare Parts",
    [⟨safety_fire_keys, ("Safety", "Fire & Emergency Equipment")⟩,
     ⟨safety_rescue_keys, ("Safety", "Rescue & Survival Equipment")⟩],
    ("Safety", "First Aid & Emergency Equipment")⟩

def v5b_blocks : List Block :=
  [electricalBlock, hullBlock, commonMaintBlock, recreationalBlock, sailingBlock, safetyBlock]

def triggerPairs : List (String × String) := v5b_blocks.map (fun b => (b.trigCat, b.trigSub))

/-- First-match-wins evaluation of an ordered list of keyword sets: the
first set with a keyword contained in the description yields its target,
otherwise the fallback; the third component is the pass-through value. -/
def firstTarget : List RuleSet → String → String × String → String → String × String × String
  | [], _, fb, v => (fb.1, fb.2, v)
  | s :: rest, desc, fb, v =>
    if anyKey s.keys desc then (s.target.1, s.target.2, v) else firstTarget rest desc fb v

/-- Outcome of running one block on a record. -/
def runBlock (b : Block) (r : Record) : String × String × String :=
  firstTarget b.sets (desc_of r) b.fallback (vsubsub r)

theorem not_trig {r : Record} {a b s : String} (h : orig_new_cat r = a) (hab : ¬ a = b) :
    ¬ (orig_new_cat r = b ∧ orig_new_sub r = s) :=
  fun hx => hab (h.symm.trans hx.1)

theorem anyKey_one (d k : String) : anyKey [k] d = strContains d k := by
  simp [anyKey]

theorem anyKey_two (d k1 k2 : String) :
    anyKey [k1, k2] d = (strContains d k1 || strContains d k2) := by
  simp [anyKey]

theorem assign_eq_electrical (r : Record)
    (h1 : orig_new_cat r = "Electrical") (h2 : orig_new_sub r = "Other Spare Parts") :
    assign_v5b r = runBlock electricalBlock r := by
  unfold assign_v5b
  rw [if_pos ⟨h1, h2⟩]
  rfl

theorem assign_eq_hull (r : Record)
    (h1 : orig_new_cat r = "Hull") (h2 : orig_new_sub r = "Other Spare Parts") :
    assign_v5b r = runBlock hullBlock r := by
  unfold assign_v5b
  rw [if_neg (not_trig h1 (by decide)), if_pos ⟨h1, h2⟩]
  rfl

theorem assign_eq_commonMaint (r : Record)
    (h1 : orig_new_cat r = "Common Maintenance") (h2 : orig_new_sub r = "Other Spare Parts") :
    assign_v5b r = runBlock commonMaintBlock r := by
  unfold assign_v5b
  rw [if_neg (not_trig h1 (by decide)), if_neg (not_trig h1 (by decide)), if_pos ⟨h1, h2⟩]
  rfl

theorem assign_eq_recreational (r : Record)
    (h1 : orig_new_cat r = "Recreational") (h2 : orig_new_sub r = "Other Spare Parts") :
    assign_v5b r = runBlock recreationalBlock r := by
  unfold assign_v5b
  rw [if_neg (not_trig h1 (by decide)), if_neg (not_trig h1 (by decide)),
    if_neg (not_trig h1 (by decide)), if_pos ⟨h1, h2⟩]
  show _ = firstTarget recreationalBlock.sets (desc_of r) recreationalBlock.fallback (vsubsub r)
  simp only [recreationalBlock, firstTarget, anyKey_one, anyKey_two]

theorem assign_eq_sailing (r : Record)
    (h1 : orig_new_cat r = "Sailing") (h2 : orig_new_sub r = "Other Spare Parts") :
    assign_v5b r = runBlock sailingBlock r := by
  unfold assign_v5b
  rw [if_neg (not_trig h1 (by decide)), if_neg (not_trig h1 (by decide)),
    if_neg (not_trig h1 (by decide)), if_neg (not_trig h1 (by decide)), if_pos ⟨h1, h2⟩]
  rfl

theorem assign_eq_safety (r : Record)
    (h1 : orig_new_cat r = "Safety") (h2 : orig_new_sub r = "Other Spare Parts") :
    assign_v5b r = runBlock safetyBlock r := by
  unfold assign_v5b
  rw [if_neg (not_trig h1 (by decide)), if_neg (not_trig h1 (by decide)),
    if_neg (not_trig h1 (by decide)), if_neg (not_trig h1 (by decide)),
    if_neg (not_trig h1 (by decide)), if_pos ⟨h1, h2⟩]
  rfl

theorem assign_eq_id (r : Record)
    (h : (orig_new_cat r, orig_new_sub r) ∉ triggerPairs) :
    assign_v5b r = (orig_new_cat r, orig_new_sub r, vsubsub r) := by
  simp only [triggerPairs, v5b_blocks, electricalBlock, hullBlock, commonMaintBlock,
    recreationalBlock, sailingBlock, safetyBlock, List.map_cons, List.map_nil,
    List.mem_cons, List.not_mem_nil, or_false, not_or, Prod.mk.injEq] at h
  obtain ⟨h1, h2, h3, h4, h5, h6⟩ := h
  unfold assign_v5b
  rw [if_neg h1, if_neg h2, if_neg h3, if_neg h4, if_neg h5, if_neg h6]

theorem assign_eq_runBlock (r : Record) (b : Block) (hb : b ∈ v5b_blocks)
    (h1 : orig_new_cat r = b.trigCat) (h2 : orig_new_sub r = b.trigSub) :
    assign_v5b r = runBlock b r := by
  simp only [v5b_blocks, List.mem_cons, List.not_mem_nil, or_false] at hb
  rcases hb with rfl | rfl | rfl | rfl | rfl | rfl
  · exact assign_eq_electrical r h1 h2
  · exact assign_eq_hull r h1 h2
  · exact assign_eq_commonMaint r h1 h2
  · exact assign_eq_recreational r h1 h2
  · exact assign_eq_sailing r h1 h2
  · exact assign_eq_safety r h1 h2

theorem firstTarget_no_match (sets : List RuleSet) (desc : String) (fb : String × String)
    (v : String) (h : ∀ s ∈ sets, anyKey s.keys desc = false) :
    firstTarget sets desc fb v = (fb.1, fb.2, v) := by
  induction sets with
  | nil => rfl
  | cons s rest ih =>
    have hs : anyKey s.keys desc = false := h s (List.mem_cons_self s rest)
    simp [firstTarget, hs, ih (fun t ht => h t (List.mem_cons_of_mem s ht))]

theorem firstTarget_first_match (sets : List RuleSet) (desc : String) (fb : String × String)
    (v : String) (i : Nat) (hi : i < sets.length)
    (hm : anyKey (sets.get ⟨i, hi⟩).keys desc = true)
    (hfirst : ∀ k (hk : k < i), anyKey (sets.get ⟨k, Nat.lt_trans hk hi⟩).keys desc = false) :
    firstTarget sets desc fb v =
      ((sets.get ⟨i, hi⟩).target.1, (sets.get ⟨i, hi⟩).target.2, v) := by
  induction sets generalizing i with
  | nil => exact absurd hi (Nat.not_lt_zero i)
  | cons s rest ih =>
    cases i with
    | zero =>
      simp [firstTarget, show anyKey s.keys desc = true from hm]
    | succ n =>
      have h0 : anyKey s.keys desc = false := hfirst 0 (Nat.succ_pos n)
      have hi2 : n < rest.length := Nat.lt_of_succ_lt_succ hi
      have hm2 : anyKey (rest.get ⟨n, hi2⟩).keys desc = true := hm
      have hfirst2 : ∀ k (hk : k < n),
          anyKey (rest.get ⟨k, Nat.lt_trans hk hi2⟩).keys desc = false :=
        fun k hk => hfirst (k + 1) (Nat.succ_lt_succ hk)
      simp [firstTarget, h0, ih n hi2 hm2 hfirst2]

theorem blocks_trigSub : ∀ b ∈ v5b_blocks, b.trigSub = "Other Spare Parts" := by decide

theorem blocks_fallback_not_catchall :
    ∀ b ∈ v5b_blocks, ¬ b.fallback.2 = "Other Spare Parts" := by decide

/-! Dataset reclassifier (`reclassify_tab_v5b`): ensure the three New
columns exist (an absent column is created filled with `""`; pandas fills
column-wise, so the pointwise `ensureCol` is the per-row reading of the
same operation), classify every row, and compute the two summaries. -/

/-- Python `if col not in df.columns: df[col] = ""` for the three New
columns: an absent cell becomes the text `""`; present values (including
missing values) are untouched. -/
def ensureCol : Cell → Cell
  | .absent => .str ""
  | c => c

def fillNewCols (r : Record) : Record :=
  ⟨r.item, r.description, r.subcategory,
   ensureCol r.newCategory, ensureCol r.newSubCategory, ensureCol r.newSubSubCategory⟩

def processedRows (rows : List Record) : List Record := rows.map fillNewCols

/-- Python `Series.fillna("")`, value-wise: a missing value compares as
the empty string, text compares as itself. -/
def fillna : Cell → String
  | .str s => s
  | _ => ""

/-- One row of the `changed` series:
`(v5b_Category != New Category.fillna("")) | (v5b_SubCategory != New Sub-Category.fillna(""))`
(the v5b columns are the strings produced by `assign_v5b`, never missing). -/
def changedRow (r : Record) : Bool :=
  ((assign_v5b r).1 != fillna r.newCategory) || ((assign_v5b r).2.1 != fillna r.newSubCategory)

def changedCount (rows : List Record) : Nat :=
  (processedRows rows).countP changedRow

/-- The derived `v5b_*` columns: `assign_v5b` applied to every processed row. -/
def v5bColumn (rows : List Record) : List (String × String × String) :=
  (processedRows rows).map assign_v5b

/-- Python `round(x, 2)` modelled over exact rationals: round to the
nearest multiple of 1/100 (the claims under test do not depend on the
tie-breaking direction of float `round`). -/
def round2 (q : ℚ) : ℚ := (⌊q * 100 + 1 / 2⌋ : ℚ) / 100

structure Summary1 where
  totalRows : Nat
  changedRows : Nat
  changedPct : ℚ
  blankV5bSubCats : Nat
  v5bCatsUsed : Nat
deriving DecidableEq

/-- Transcription of the `summary1` frame of `reclassify_tab_v5b`. -/
def mkSummary1 (rows : List Record) : Summary1 :=
  ⟨rows.length,
   changedCount rows,
   round2 (100 * (changedCount rows : ℚ) / ((max rows.length 1 : ℕ) : ℚ)),
   ((v5bColumn rows).map (fun t => Cell.str t.2.1)).countP (fun c => c == Cell.null),
   ((v5bColumn rows).map (fun t => t.1)).dedup.length⟩

/-- Rows passing the Summary2 filter
`df_v5b[df_v5b["New Sub-Category"] == "Other Spare Parts"]` (a missing
value is not equal to the catch-all text). -/
def catchAllRows (rows : List Record) : List Record :=
  (processedRows rows).filter (fun r => r.newSubCategory == Cell.str "Other Spare Parts")

/-- Group key of one row for
`groupby(["New Category", "v5b_Category"])`: pandas `groupby` drops rows
whose key is a missing value, so only text-valued `New Category` cells
produce a key. -/
def keyFun (r : Record) : Option (String × String) :=
  match r.newCategory with
  | Cell.str c => some (c, (assign_v5b r).1)
  | _ => none

def s2Keys (rows : List Record) : List (String × String) :=
  (catchAllRows rows).filterMap keyFun

/-- Transcription of the `summary2` frame: one row per distinct group key,
with the size of the group. -/
def summary2 (rows : List Record) : List ((String × String) × Nat) :=
  (s2Keys rows).dedup.map (fun p => (p, (s2Keys rows).count p))

structure Workbook where
  sheet : List (Record × (String × String × String))
  sum1 : Summary1
  sum2 : List ((String × String) × Nat)

/-- Transcription of `reclassify_tab_v5b`: the augmented sheet (each row
with its derived triple) plus the two summaries. -/
def reclassify_tab (rows : List Record) : Workbook :=
  ⟨(processedRows rows).map (fun r => (r, assign_v5b r)), mkSummary1 rows, summary2 rows⟩

inductive Effect where
  | readSheet (sheet : String)
  | writeWorkbook (path : String)
deriving DecidableEq

/-- Model of `main()`: the filesystem is the list of existing paths and
`sheetRows` is the content the named sheet would hold. The guard
`if not input_path.exists(): raise FileNotFoundError(...)` runs before
`reclassify_tab_v5b` reads or writes anything, so on the error path the
effect trace is empty and no workbook value exists. -/
def mainModel (existingFiles : List String) (input sheet output : String)
    (sheetRows : List Record) : Except String Workbook × List Effect :=
  if input ∈ existingFiles then
    (Except.ok (reclassify_tab sheetRows),
     [Effect.readSheet sheet, Effect.writeWorkbook output])
  else
    (Except.error ("Input file not found: " ++ input), [])

/-! Claim theorems. -/

/-- Description extractor following the spec text for C2 (not the code):
keep only fields present and non-null, lowercase each kept value, join the
kept values with single spaces. Defined solely to compare with `desc_of`. -/
def descSpec (row : Record) : String :=
  joinSpace (([row.item, row.description, row.subcategory].filterMap (fun c =>
    match c with
    | Cell.str s => some s
    | _ => none)).map pyLower)

theorem firstTarget_third (sets : List RuleSet) (desc : String) (fb : String × String)
    (v : String) : (firstTarget sets desc fb v).2.2 = v := by
  induction sets with
  | nil => rfl
  | cons s rest ih =>
    simp only [firstTarget]
    split
    · rfl
    · exact ih

/-- C1 counterexample: for the record with `New Category="Hull"`,
`New Sub-Category="Other Spare Parts"`, `Description="fire extinguisher
bracket"`, the claim says `classify` returns the Hull fallback
`("Hull", "Hull Maintenance & Repair")`; in fact the description contains
the fire keywords "fire" and "extinguisher", so the fire set matches and
the result is `("Safety", "Fire & Emergency Equipment")`. -/
theorem C1_counterexample :
    ¬ ((assign_v5b ⟨.absent, .str "fire extinguisher bracket", .absent,
          .str "Hull", .str "Other Spare Parts", .str "Bracket Kit"⟩).1 = "Hull" ∧
       (assign_v5b ⟨.absent, .str "fire extinguisher bracket", .absent,
          .str "Hull", .str "Other Spare Parts", .str "Bracket Kit"⟩).2.1 =
          "Hull Maintenance & Repair") := by
  decide

/-- C1 (amended): for that record the maintenance and rigging sets do not
match, but the fire set does ("fire" and "extinguisher" are substrings of
the description), so `classify` returns
`("Safety", "Fire & Emergency Equipment")` with the sub-sub-category
passed through; "bracket" alone is indeed in none of the four sets. -/
theorem C1_hull_fire_extinguisher_bracket :
    assign_v5b ⟨.absent, .str "fire extinguisher bracket", .absent,
        .str "Hull", .str "Other Spare Parts", .str "Bracket Kit"⟩ =
      ("Safety", "Fire & Emergency Equipment", "Bracket Kit") ∧
    anyKey hull_maintenance_keys
      (desc_of ⟨.absent, .str "fire extinguisher bracket", .absent,
        .str "Hull", .str "Other Spare Parts", .str "Bracket Kit"⟩) = false ∧
    anyKey hull_rigging_keys
      (desc_of ⟨.absent, .str "fire extinguisher bracket", .absent,
        .str "Hull", .str "Other Spare Parts", .str "Bracket Kit"⟩) = false ∧
    anyKey safety_fire_keys
      (desc_of ⟨.absent, .str "fire extinguisher bracket", .absent,
        .str "Hull", .str "Other Spare Parts", .str "Bracket Kit"⟩) = true ∧
    ((hull_maintenance_keys ++ hull_rigging_keys ++ safety_fire_keys ++
        safety_rescue_keys).contains "bracket") = false := by
  decide

/-- C2 counterexample: with `Item` and `Subcategory` absent and
`Description="Anchor Rope"`, the code joins all three fields, giving
`" anchor rope "` — absent fields contribute empty strings and the
separator spaces remain — while the spec-described extractor (skip absent
or null fields entirely) would give `"anchor rope"`. -/
theorem C2_counterexample :
    desc_of ⟨.absent, .str "Anchor Rope", .absent, .absent, .absent, .absent⟩ =
      " anchor rope " ∧
    descSpec ⟨.absent, .str "Anchor Rope", .absent, .absent, .absent, .absent⟩ =
      "anchor rope" ∧
    ¬ desc_of ⟨.absent, .str "Anchor Rope", .absent, .absent, .absent, .absent⟩ =
        descSpec ⟨.absent, .str "Anchor Rope", .absent, .absent, .absent, .absent⟩ := by
  decide

/-- C2 (amended): the description string joins the text of all three
fields `Item`, `Description`, `Subcategory` unconditionally, lowercased,
with a single-space separator between consecutive fields; an absent field
contributes the empty string and a null field contributes the text "nan"
(Python `str` of NaN), so skipped-looking fields still leave their
separator spaces in the result. -/
theorem C2_desc_joins_all_fields (r : Record) :
    desc_of r =
      pyLower (cellText r.item) ++ " " ++ pyLower (cellText r.description) ++ " " ++
        pyLower (cellText r.subcategory) := by
  simp [desc_of, joinSpace, String.append_assoc]

/-- C3 counterexample: the record with `New Category="Plumbing "`
(trailing space) and `New Sub-Category="Other Spare Parts"` matches no
trigger pair, yet `classify` returns `("Plumbing", "Other Spare Parts",
"")`, not the input triple: the whitespace is stripped, so the output is
not the identity on the input values. -/
theorem C3_counterexample :
    (("Plumbing ", "Other Spare Parts") ∉ triggerPairs) ∧
    ((pyStrip "Plumbing ", pyStrip "Other Spare Parts") ∉ triggerPairs) ∧
    assign_v5b ⟨.absent, .absent, .absent,
        .str "Plumbing ", .str "Other Spare Parts", .str ""⟩ =
      ("Plumbing", "Other Spare Parts", "") ∧
    ¬ ("Plumbing" : String) = "Plumbing " := by
  decide

/-- C3 (amended): for every record whose stripped (category,
sub-category) pair matches none of the six trigger pairs, `classify`
returns the whitespace-stripped text forms of the three prior fields
(with a null field stringified to "nan") — which is the input triple
exactly whenever those fields are text with no surrounding whitespace. -/
theorem C3_identity_up_to_strip (r : Record)
    (h : (orig_new_cat r, orig_new_sub r) ∉ triggerPairs) :
    assign_v5b r = (orig_new_cat r, orig_new_sub r, vsubsub r) :=
  assign_eq_id r h

/-- C3 witness: concrete untriggered record, hypothesis checked by
`decide`, conclusion evaluated. -/
theorem C3_identity_up_to_strip_witness :
    ((orig_new_cat ⟨.absent, .absent, .absent,
        .str "Plumbing", .str "Other Spare Parts", .str "Hose"⟩,
      orig_new_sub ⟨.absent, .absent, .absent,
        .str "Plumbing", .str "Other Spare Parts", .str "Hose"⟩) ∉ triggerPairs) ∧
    assign_v5b ⟨.absent, .absent, .absent,
        .str "Plumbing", .str "Other Spare Parts", .str "Hose"⟩ =
      ("Plumbing", "Other Spare Parts", "Hose") :=
  ⟨by decide,
   (C3_identity_up_to_strip ⟨.absent, .absent, .absent,
      .str "Plumbing", .str "Other Spare Parts", .str "Hose"⟩ (by decide)).trans
    (by decide)⟩

/-- C4 counterexample: a record whose `New Sub-Sub-Category` is
`" Deck Hose "` comes back with third component `"Deck Hose"`: the value
is whitespace-stripped, not passed through exactly. -/
theorem C4_counterexample :
    (assign_v5b ⟨.absent, .absent, .absent,
        .str "Plumbing", .str "Hoses", .str " Deck Hose "⟩).2.2 = "Deck Hose" ∧
    ¬ (assign_v5b ⟨.absent, .absent, .absent,
        .str "Plumbing", .str "Hoses", .str " Deck Hose "⟩).2.2 = " Deck Hose " := by
  decide

/-- C4 (amended): for every record and every rule outcome, the third
component of the result is `str(row.get("New Sub-Sub-Category",
"")).strip()` — the whitespace-stripped text of the existing
sub-sub-category (a null value stringifies to "nan"); no rule block ever
substitutes a different value, so on text values with no surrounding
whitespace it is the exact pass-through. -/
theorem C4_subsub_is_stripped_passthrough (r : Record) :
    (assign_v5b r).2.2 = vsubsub r := by
  by_cases h : (orig_new_cat r, orig_new_sub r) ∈ triggerPairs
  · obtain ⟨b, hb, heq⟩ := List.mem_map.1 h
    obtain ⟨h1, h2⟩ := Prod.mk.injEq .. ▸ heq.symm
    rw [assign_eq_runBlock r b hb h1 h2]
    exact firstTarget_third b.sets (desc_of r) b.fallback (vsubsub r)
  · rw [assign_eq_id r h]

/-- C5: for every record matching a trigger pair whose description
contains no keyword of any set of that block (so also for every record
with an empty or missing description), `classify` returns exactly that
block's declared fallback pair, which is never the identity; and every
block's fallback sub-category differs from the catch-all
"Other Spare Parts". -/
theorem C5_fallback_on_no_match (r : Record) (b : Block) (hb : b ∈ v5b_blocks)
    (h1 : orig_new_cat r = b.trigCat) (h2 : orig_new_sub r = b.trigSub)
    (hno : ∀ s ∈ b.sets, anyKey s.keys (desc_of r) = false) :
    ((assign_v5b r).1, (assign_v5b r).2.1) = b.fallback ∧
    ¬ ((assign_v5b r).1, (assign_v5b r).2.1) = (orig_new_cat r, orig_new_sub r) ∧
    ∀ b2 ∈ v5b_blocks, ¬ b2.fallback.2 = "Other Spare Parts" := by
  have hrun := assign_eq_runBlock r b hb h1 h2
  have hft : runBlock b r = (b.fallback.1, b.fallback.2, vsubsub r) :=
    firstTarget_no_match b.sets (desc_of r) b.fallback (vsubsub r) hno
  rw [hrun, hft]
  refine ⟨rfl, ?_, blocks_fallback_not_catchall⟩
  intro hx
  have hsub : b.fallback.2 = orig_new_sub r := congrArg Prod.snd hx
  exact blocks_fallback_not_catchall b hb ((hsub.trans h2).trans (blocks_trigSub b hb))

/-- C5 witness: a Common Maintenance catch-all record with an empty
description takes the block fallback ("Common Maintenance",
"Maintenance Consumables"), not the identity. -/
theorem C5_fallback_on_no_match_witness :
    ((assign_v5b ⟨.absent, .absent, .absent,
        .str "Common Maintenance", .str "Other Spare Parts", .absent⟩).1,
     (assign_v5b ⟨.absent, .absent, .absent,
        .str "Common Maintenance", .str "Other Spare Parts", .absent⟩).2.1) =
      commonMaintBlock.fallback ∧
    ¬ ((assign_v5b ⟨.absent, .absent, .absent,
        .str "Common Maintenance", .str "Other Spare Parts", .absent⟩).1,
       (assign_v5b ⟨.absent, .absent, .absent,
        .str "Common Maintenance", .str "Other Spare Parts", .absent⟩).2.1) =
      (orig_new_cat ⟨.absent, .absent, .absent,
        .str "Common Maintenance", .str "Other Spare Parts", .absent⟩,
       orig_new_sub ⟨.absent, .absent, .absent,
        .str "Common Maintenance", .str "Other Spare Parts", .absent⟩) ∧
    ∀ b2 ∈ v5b_blocks, ¬ b2.fallback.2 = "Other Spare Parts" :=
  C5_fallback_on_no_match
    ⟨.absent, .absent, .absent, .str "Common Maintenance", .str "Other Spare Parts", .absent⟩
    commonMaintBlock (by decide) (by decide) (by decide) (by decide)

/-- C6: within a triggered block the keyword sets are tested in declared
order and the first matching one wins: if the sets at positions i and j
(i < j) both match the description and no set before position i matches,
the result is the target of the set at position i — the earlier of the
two. -/
theorem C6_first_match_wins (r : Record) (b : Block) (hb : b ∈ v5b_blocks)
    (h1 : orig_new_cat r = b.trigCat) (h2 : orig_new_sub r = b.trigSub)
    (i j : Nat) (hi : i < b.sets.length) (hj : j < b.sets.length) (hij : i < j)
    (hmi : anyKey (b.sets.get ⟨i, hi⟩).keys (desc_of r) = true)
    (hmj : anyKey (b.sets.get ⟨j, hj⟩).keys (desc_of r) = true)
    (hfirst : ∀ k (hk : k < i),
      anyKey (b.sets.get ⟨k, Nat.lt_trans hk hi⟩).keys (desc_of r) = false) :
    ((assign_v5b r).1, (assign_v5b r).2.1) = (b.sets.get ⟨i, hi⟩).target := by
  have hrun := assign_eq_runBlock r b hb h1 h2
  have hft : runBlock b r =
      ((b.sets.get ⟨i, hi⟩).target.1, (b.sets.get ⟨i, hi⟩).target.2, vsubsub r) :=
    firstTarget_first_match b.sets (desc_of r) b.fallback (vsubsub r) i hi hmi hfirst
  rw [hrun, hft]

/-- C6 witness: under the Hull trigger, the description "epoxy fire"
matches both the maintenance set (position 0, via "epoxy") and the fire
set (position 2, via "fire"); the earlier set wins, giving
("Hull", "Hull Maintenance & Repair"). -/
theorem C6_first_match_wins_witness :
    ((assign_v5b ⟨.absent, .str "epoxy fire", .absent,
        .str "Hull", .str "Other Spare Parts", .absent⟩).1,
     (assign_v5b ⟨.absent, .str "epoxy fire", .absent,
        .str "Hull", .str "Other Spare Parts", .absent⟩).2.1) =
      ("Hull", "Hull Maintenance & Repair") :=
  (C6_first_match_wins
    ⟨.absent, .str "epoxy fire", .absent, .str "Hull", .str "Other Spare Parts", .absent⟩
    hullBlock (by decide) (by decide) (by decide) 0 2 (by decide) (by decide) (by decide)
    (by decide) (by decide)
    (fun k hk => absurd hk (Nat.not_lt_zero k))).trans (by decide)

theorem bne_eq_decide_not (a b : String) : (a != b) = decide (¬ a = b) := by
  by_cases h : a = b <;> simp [h]

theorem changedRow_eq_decide (r : Record) :
    changedRow r =
      decide (¬ (assign_v5b r).1 = fillna r.newCategory ∨
              ¬ (assign_v5b r).2.1 = fillna r.newSubCategory) := by
  unfold changedRow
  by_cases h1 : (assign_v5b r).1 = fillna r.newCategory <;>
    by_cases h2 : (assign_v5b r).2.1 = fillna r.newSubCategory <;> simp [h1, h2]

/-- C7: Summary1's Changed Rows is the number of processed rows whose
derived category differs from the prior category or whose derived
sub-category differs from the prior sub-category, nulls comparing as
empty strings (`fillna`); Changed % is `100 * changed / max(total, 1)`
rounded to 2 decimals; and on the empty table the percentage is a
well-defined 0 (no division by zero). -/
theorem C7_summary1_changed_count_and_pct (rows : List Record) :
    (mkSummary1 rows).changedRows =
      ((processedRows rows).filter (fun r =>
        decide (¬ (assign_v5b r).1 = fillna r.newCategory ∨
                ¬ (assign_v5b r).2.1 = fillna r.newSubCategory))).length ∧
    (mkSummary1 rows).changedPct =
      round2 (100 * ((mkSummary1 rows).changedRows : ℚ) /
        ((max (mkSummary1 rows).totalRows 1 : ℕ) : ℚ)) ∧
    (rows = [] → (mkSummary1 rows).changedPct = 0) := by
  refine ⟨?_, rfl, ?_⟩
  · show changedCount rows = _
    have hfun : changedRow = fun r =>
        decide (¬ (assign_v5b r).1 = fillna r.newCategory ∨
                ¬ (assign_v5b r).2.1 = fillna r.newSubCategory) :=
      funext changedRow_eq_decide
    rw [changedCount, List.countP_eq_length_filter, hfun]
  · rintro rfl
    show round2 (100 * ((changedCount [] : ℚ)) / _) = 0
    norm_num [changedCount, processedRows, round2]

/-- C7 witness: on the empty table Summary1 divides by max(0,1)=1 and
reports 0 changed rows, 0%. -/
theorem C7_summary1_witness :
    (mkSummary1 []).changedRows = (([] : List Record).filter (fun r =>
        decide (¬ (assign_v5b r).1 = fillna r.newCategory ∨
                ¬ (assign_v5b r).2.1 = fillna r.newSubCategory))).length ∧
    (mkSummary1 []).changedPct = 0 :=
  ⟨((C7_summary1_changed_count_and_pct []).1).trans (by rfl),
   (C7_summary1_changed_count_and_pct []).2.2 rfl⟩

/-- Number of catch-all rows in the group of the pair `(c, d)`: prior
category is the text `c` and derived category is `d`. -/
def occCount (rows : List Record) (c d : String) : Nat :=
  (catchAllRows rows).countP
    (fun r => decide (r.newCategory = Cell.str c ∧ (assign_v5b r).1 = d))

theorem s2Keys_count (rows : List Record) (c d : String) :
    (s2Keys rows).count (c, d) = occCount rows c d := by
  rw [s2Keys, occCount]
  induction catchAllRows rows with
  | nil => rfl
  | cons r l ih =>
    rw [List.countP_cons]
    cases hc : r.newCategory with
    | absent =>
      have hk : keyFun r = none := by rw [keyFun, hc]
      simp [List.filterMap_cons, hk, hc, ih]
    | null =>
      have hk : keyFun r = none := by rw [keyFun, hc]
      simp [List.filterMap_cons, hk, hc, ih]
    | str c2 =>
      have hk : keyFun r = some (c2, (assign_v5b r).1) := by rw [keyFun, hc]
      rw [List.filterMap_cons, hk, List.count_cons, ih]
      by_cases he : c2 = c ∧ (assign_v5b r).1 = d
      · simp [hc, he.1, he.2]
      · have h1 : ¬ ((c2, (assign_v5b r).1) = (c, d)) := by
          intro hx
          exact he ⟨congrArg Prod.fst hx, congrArg Prod.snd hx⟩
        have h2 : ¬ (Cell.str c2 = Cell.str c ∧ (assign_v5b r).1 = d) := by
          rintro ⟨hx, hy⟩
          exact he ⟨Cell.str.injEq .. ▸ hx, hy⟩
        simp [hc, h1, h2]
        exact fun hce hde => he ⟨hce, hde⟩

/-- C8: Summary2 has pairwise-distinct group keys; a pair (prior
category `c`, derived category `d`) appears as a key exactly when some
record whose prior sub-category is the catch-all "Other Spare Parts" has
prior category text `c` and derived category `d` (zero-occurrence pairs
are omitted, and rows with any other prior sub-category are counted in no
group); and the count carried by the row of `(c, d)` is the size of that
group. -/
theorem C8_summary2_groups (rows : List Record) :
    ((summary2 rows).map (fun e => e.1)).Nodup ∧
    ∀ c d : String,
      ((∃ n, ((c, d), n) ∈ summary2 rows) ↔ 0 < occCount rows c d) ∧
      ∀ n, ((c, d), n) ∈ summary2 rows → n = occCount rows c d := by
  constructor
  · have hmap : (summary2 rows).map (fun e => e.1) = (s2Keys rows).dedup := by
      rw [summary2, List.map_map]
      exact List.map_id _
    rw [hmap]
    exact List.nodup_dedup _
  · intro c d
    have hmem : ∀ n : Nat, (((c, d), n) ∈ summary2 rows ↔
        (c, d) ∈ (s2Keys rows).dedup ∧ n = (s2Keys rows).count (c, d)) := by
      intro n
      rw [summary2]
      constructor
      · intro h
        obtain ⟨p, hp, he⟩ := List.mem_map.1 h
        have h1 : p = (c, d) := congrArg Prod.fst he
        have h2 : (s2Keys rows).count p = n := congrArg Prod.snd he
        exact ⟨h1 ▸ hp, (h1 ▸ h2).symm⟩
      · rintro ⟨h1, rfl⟩
        exact List.mem_map.2 ⟨(c, d), h1, rfl⟩
    refine ⟨⟨?_, ?_⟩, ?_⟩
    · rintro ⟨n, hn⟩
      have h := (hmem n).1 hn
      have hm : (c, d) ∈ s2Keys rows := List.mem_dedup.1 h.1
      have := List.count_pos_iff.2 hm
      rwa [s2Keys_count] at this
    · intro hpos
      have hcnt : 0 < (s2Keys rows).count (c, d) := by
        rw [s2Keys_count]; exact hpos
      have hm : (c, d) ∈ s2Keys rows := List.count_pos_iff.1 hcnt
      exact ⟨(s2Keys rows).count (c, d), (hmem _).2 ⟨List.mem_dedup.2 hm, rfl⟩⟩
    · intro n hn
      have h := (hmem n).1 hn
      rw [h.2, s2Keys_count]

/-- C8 witness: a single Hull catch-all record whose description contains
"fire" groups under (prior "Hull", derived "Safety") with count 1. -/
theorem C8_summary2_groups_witness :
    ((("Hull", "Safety"), 1) ∈
      summary2 [⟨.absent, .str "fire", .absent,
        .str "Hull", .str "Other Spare Parts", .absent⟩]) ∧
    1 = occCount [⟨.absent, .str "fire", .absent,
        .str "Hull", .str "Other Spare Parts", .absent⟩] "Hull" "Safety" :=
  ⟨by decide,
   ((C8_summary2_groups [⟨.absent, .str "fire", .absent,
      .str "Hull", .str "Other Spare Parts", .absent⟩]).2 "Hull" "Safety").2 1 (by decide)⟩

/-- C9: when the input path is not among the existing files, the run
produces the file-not-found error, performs no effect (no sheet read, no
workbook written), and yields no output artifact. -/
theorem C9_missing_input_fails_fast (existingFiles : List String)
    (input sheet output : String) (tbl : List Record)
    (h : input ∉ existingFiles) :
    mainModel existingFiles input sheet output tbl =
      (Except.error ("Input file not found: " ++ input), []) := by
  rw [mainModel, if_neg h]

/-- C9 witness: concrete missing input path. -/
theorem C9_missing_input_fails_fast_witness :
    mainModel ["Inventory.xlsx"] "Missing.xlsx" "Salon" "Out.xlsx" [] =
      (Except.error ("Input file not found: " ++ "Missing.xlsx"), []) :=
  C9_missing_input_fails_fast ["Inventory.xlsx"] "Missing.xlsx" "Salon" "Out.xlsx" []
    (by decide)

/-- C10: the derived `v5b_SubCategory` column consists of the strings
returned by `assign_v5b` (every return path of `assign_v5b` yields text
values, never a missing value), so Summary1's Blank v5b Sub-Categories —
the missing-value count of that column — is 0 for every input table. -/
theorem C10_no_blank_derived_subcats (rows : List Record) :
    (mkSummary1 rows).blankV5bSubCats = 0 := by
  show ((v5bColumn rows).map (fun t => Cell.str t.2.1)).countP (fun c => c == Cell.null) = 0
  simp [List.countP_map, Function.comp]
